import Mathlib

/-!
# Verification of the `vsix-builder` package-assembly pipeline

Shallow embedding of the repository's manifest validator
(`src/manifest.ts`), package-manifest synthesizer (`toVsixManifest` /
`escapeXml` in `src/manifest.ts`) and the `createVsix` orchestrator
(`src/index.ts`, and the variant kept as an unnamed source file), together
with models of the external JavaScript/Node primitives those functions call
(`semver`, `decodeURI`, the WHATWG `URL` class), and proofs settling the
frozen claims about them.
-/

namespace VsixBuilder

/-! ## JavaScript primitives -/

/-! ### Character-list string primitives

The embedding computes on `String.data` throughout (splitting, prefix
tests, case folding, …), so that every definition evaluates on concrete
inputs by plain kernel reduction. -/

def strLength (s : String) : Nat := s.data.length

def strIsEmpty (s : String) : Bool := s.data.isEmpty

def strStartsWith (s p : String) : Bool := p.data.isPrefixOf s.data

def strEndsWith (s p : String) : Bool := p.data.isSuffixOf s.data

def strDrop (s : String) (n : Nat) : String := ⟨s.data.drop n⟩

def strDropRight (s : String) (n : Nat) : String := ⟨s.data.take (s.data.length - n)⟩

/-- ASCII lower-casing, as the host names these claims exercise are ASCII. -/
def charToLower (c : Char) : Char :=
  if 'A' ≤ c && c ≤ 'Z' then Char.ofNat (c.toNat + 32) else c

def strToLower (s : String) : String := ⟨s.data.map charToLower⟩

def strTrim (s : String) : String :=
  ⟨((s.data.dropWhile Char.isWhitespace).reverse.dropWhile Char.isWhitespace).reverse⟩

/-- The value a decimal digit denotes. -/
def digitToNat (c : Char) : Nat := c.toNat - 48

/-- The numeric value of a digit string. -/
def strToNat (s : String) : Nat :=
  s.data.foldl (fun a c => 10 * a + digitToNat c) 0

def strSplitOnAux (sep : List Char) : Nat → List Char → List Char → List (List Char)
  | 0, l, acc => [acc.reverse ++ l]
  | _ + 1, [], acc => [acc.reverse]
  | fuel + 1, c :: rest, acc =>
    if sep.isPrefixOf (c :: rest) then
      acc.reverse :: strSplitOnAux sep fuel ((c :: rest).drop sep.length) []
    else strSplitOnAux sep fuel rest (c :: acc)

/-- Split at the leftmost non-overlapping occurrences of a nonempty
separator, keeping empty pieces (`String.splitOn` semantics). -/
def strSplitOn (s sep : String) : List String :=
  (strSplitOnAux sep.data (s.data.length + 1) s.data []).map String.mk

/-- Truthiness of an optional JavaScript string: `undefined`, `null` and the
empty string are falsy; every other string is truthy. -/
def truthyStr : Option String → Bool
  | none => false
  | some s => !strIsEmpty s

/-- `String(b)` for a JavaScript boolean. -/
def jsBool (b : Bool) : String := if b then "true" else "false"

/-- Template-literal interpolation of a possibly-`undefined` string. -/
def jsShow : Option String → String
  | none => "undefined"
  | some s => s

/-- The JavaScript line terminators, which `.` in the source's regular
expressions does not match. -/
def isJsLineTerminator (c : Char) : Bool :=
  c = '\n' || c = '\r' || c = '\u2028' || c = '\u2029'

/-! ## The `semver` npm package, modelled at the interface boundary

`src/manifest.ts` imports `valid` and `satisfies` from `semver`. The parts
exercised there — strict parsing of `M.m.p(-prerelease)?(+build)?` and
`satisfies(v, ">=1.74", { includePrerelease: true })` — are embedded below.
-/

def isDigits (s : String) : Bool := !strIsEmpty s && s.data.all (·.isDigit)

/-- A numeric identifier of strict semver: digits with no leading zeros. -/
def isNumericId (s : String) : Bool := isDigits s && (s = "0" || !strStartsWith s "0")

/-- `Number.MAX_SAFE_INTEGER`, the bound semver places on each numeric
version component. -/
def MAX_SAFE_INTEGER : Nat := 9007199254740991

def numericFits (s : String) : Bool :=
  isNumericId s && strToNat s ≤ MAX_SAFE_INTEGER

/-- `[0-9a-zA-Z-]`, the character set of semver prerelease and build
identifiers. -/
def isAlnumHyphen (c : Char) : Bool := c.isAlpha || c.isDigit || c = '-'

/-- A prerelease identifier of strict semver: nonempty, alphanumeric or
hyphen, and — when purely numeric — free of leading zeros. -/
def isPrereleaseId (s : String) : Bool :=
  !strIsEmpty s && s.data.all isAlnumHyphen && (!(s.data.all (·.isDigit)) || isNumericId s)

structure SemVer where
  major : Nat
  minor : Nat
  patch : Nat
  prerelease : List String
deriving DecidableEq, Repr

/-- The `M.m.p` core: exactly three dot-separated numeric components. -/
def parseSemVerMain (s : String) : Option (Nat × Nat × Nat) :=
  match strSplitOn s "." with
  | [a, b, c] =>
      if numericFits a && numericFits b && numericFits c then
        some (strToNat a, strToNat b, strToNat c)
      else none
  | _ => none

/-- The version core with its optional prerelease group: the main part runs
up to the first `-`; the prerelease group is dot-separated identifiers. -/
def parseSemVerCore (core : String) : Option SemVer :=
  match strSplitOn core "-" with
  | [] => none
  | mainStr :: rest =>
    match parseSemVerMain mainStr with
    | none => none
    | some (ma, mi, pa) =>
      if rest.isEmpty then some ⟨ma, mi, pa, []⟩
      else
        let pre := strSplitOn (String.intercalate "-" rest) "."
        if pre.all isPrereleaseId then some ⟨ma, mi, pa, pre⟩ else none

/-- Strict (`loose: false`) parse of a version, as `new SemVer(v)`: at most
256 characters, trimmed, `core(+build)?` where the build group is nonempty
dot-separated `[0-9a-zA-Z-]+` identifiers (recorded only as present). -/
def parseSemVerStrict (v0 : String) : Option SemVer :=
  if strLength v0 > 256 then none
  else
    let v := strTrim v0
    match strSplitOn v "+" with
    | [core] => parseSemVerCore core
    | [core, build] =>
        if (strSplitOn build ".").all
            (fun b => !strIsEmpty b && b.data.all isAlnumHyphen) then
          parseSemVerCore core
        else none
    | _ => none

/-- `valid(version) != null` from `semver`. -/
def semverValid (v : String) : Bool := (parseSemVerStrict v).isSome

/-- `satisfies(v, ">=1.74", { includePrerelease: true })` from `semver`: the
range parses to the single comparator `>=1.74.0`; with `includePrerelease`
the test is plain semver comparison, under which a prerelease of `1.74.0`
sorts below `1.74.0` itself. An unparsable version never satisfies. -/
def semverSatisfiesGe174 (v : String) : Bool :=
  match parseSemVerStrict v with
  | none => false
  | some sv =>
      sv.major > 1 ||
      (sv.major = 1 &&
        (sv.minor > 74 ||
          (sv.minor = 74 && (sv.patch > 0 || (sv.patch = 0 && sv.prerelease.isEmpty)))))

/-! ## The validator's regular expressions (`src/manifest.ts`) -/

/-- A character of the class `[a-z0-9]` under the `i` flag. -/
def isNameChar (c : Char) : Bool := c.isDigit || ('a' ≤ charToLower c && charToLower c ≤ 'z')

/-- `EXTENSION_NAME_REGEX = /^[a-z0-9][a-z0-9\-]*$/i`. -/
def extensionNameRegexTest (s : String) : Bool :=
  match s.data with
  | [] => false
  | c :: cs => isNameChar c && cs.all (fun d => isNameChar d || d = '-')

/-- A component of the engine-range grammar: `(\d+)|x`. -/
def isEngineComp (s : String) : Bool := isDigits s || s = "x"

/-- `VSCODE_ENGINE_COMPATIBILITY_REGEX =
    /^\*$|^(\^|>=)?((\d+)|x)\.((\d+)|x)\.((\d+)|x)(\-.*)?$/`.
The third component runs up to the first `-` of the tail; the suffix after
that `-` is arbitrary except that `.` does not cross a line terminator. -/
def vscodeEngineRegexTest (s : String) : Bool :=
  s = "*" ||
  (let t := if strStartsWith s ">=" then strDrop s 2
            else if strStartsWith s "^" then strDrop s 1 else s
   match strSplitOn t "." with
   | c1 :: c2 :: c3 :: rest =>
     isEngineComp c1 && isEngineComp c2 &&
     (match strSplitOn (String.intercalate "." (c3 :: rest)) "-" with
      | [] => false
      | comp :: suf =>
        isEngineComp comp &&
        (suf.isEmpty ||
          (String.intercalate "-" suf).data.all (fun c => !isJsLineTerminator c)))
   | _ => false)

/-- `GITHUB_BADGE_URL_REGEX =
    /^https:\/\/github\.com\/[^/]+\/[^/]+\/(actions\/)?workflows\/.*badge\.svg/`.
Two nonempty path segments, an optional `actions/`, then `workflows/`, then
`badge.svg` somewhere later on the same line (`.` does not cross a line
terminator; the match need not reach the end of the string). -/
def githubBadgeRegexTest (s : String) : Bool :=
  strStartsWith s "https://github.com/" &&
  (match strSplitOn (strDrop s 19) "/" with
   | p1 :: p2 :: restParts =>
     !strIsEmpty p1 && !strIsEmpty p2 &&
     (let rest := String.intercalate "/" restParts
      let rest2 := if strStartsWith rest "actions/" then strDrop rest 8 else rest
      strStartsWith rest2 "workflows/" &&
      (match strSplitOn (strDrop rest2 10) "badge.svg" with
       | [] => false
       | pre :: tailParts =>
         !tailParts.isEmpty && pre.data.all (fun c => !isJsLineTerminator c)))
   | _ => false)

/-! ## `decodeURI` and the WHATWG `URL` class, modelled at the interface
boundary

Both are JavaScript/Node built-ins used by `validateProjectManifest`; they
are not code of this repository, so they are modelled here just faithfully
enough for the inputs the claims exercise. -/

def hexVal (c : Char) : Option Nat :=
  if c.isDigit then some (digitToNat c)
  else if 'a' ≤ c && c ≤ 'f' then some (c.toNat - 87)
  else if 'A' ≤ c && c ≤ 'F' then some (c.toNat - 55)
  else none

/-- The escape sequences `decodeURI` leaves intact: `# $ & + , / : ; = ? @`. -/
def uriReservedSet : List Char := ['#', '$', '&', '+', ',', '/', ':', ';', '=', '?', '@']

def decodeURIChars : List Char → List Char
  | [] => []
  | '%' :: a :: b :: rest =>
    (match hexVal a, hexVal b with
     | some ha, some hb =>
       let n := 16 * ha + hb
       if n < 128 && !(uriReservedSet.contains (Char.ofNat n)) then
         Char.ofNat n :: decodeURIChars rest
       else '%' :: a :: b :: decodeURIChars rest
     | _, _ => '%' :: a :: b :: decodeURIChars rest)
  | c :: rest => c :: decodeURIChars rest

/-- JavaScript's `decodeURI`: single-byte percent-escapes are decoded except
those of the reserved set, which stay encoded. Multi-byte and malformed
sequences — on which the real `decodeURI` throws `URIError`, so the
validator returns no diagnostic list at all — are left unchanged here; the
model is exact on every input free of them, in particular on all inputs the
claims evaluate. -/
def decodeURIModel (s : String) : String := ⟨decodeURIChars s.data⟩

structure JsURL where
  /-- e.g. `"http:"`. -/
  protocol : String
  /-- lowercased `hostname[:port]`; `""` when the URL has no authority. -/
  host : String
  href : String
deriving DecidableEq, Repr

def isSchemeChar (c : Char) : Bool := c.isAlpha || c.isDigit || c = '+' || c = '-' || c = '.'

/-- The WHATWG special schemes, which require `//` and a nonempty host. -/
def specialSchemes : List String := ["http", "https", "ws", "wss", "ftp", "file"]

def isHostChar (c : Char) : Bool :=
  !(c = ' ' || c = '#' || c = '/' || c = ':' || c = '?' || c = '@' || c = '[' ||
    c = '\\' || c = ']' || c = '<' || c = '>' || c = '^' || c = '|' || c = '%')

/-- Split the part after `scheme://` into authority and the rest: the
authority runs up to the first `/`, `?` or `#`. -/
def splitAuthority (l : List Char) : List Char × List Char :=
  match l with
  | [] => ([], [])
  | c :: rest =>
    if c = '/' || c = '?' || c = '#' then ([], c :: rest)
    else
      let (a, r) := splitAuthority rest
      (c :: a, r)

/-- The WHATWG `URL` constructor (`new URL(input)`), simplified: an absolute
URL is a valid scheme followed by `:`; a special scheme further requires
`//` and a nonempty simple host (userinfo is dropped at the last `@`, a
numeric port is split off at a final `:`), which is lowercased; `href`
re-serializes as `scheme://host` plus the remainder (with `/` supplied for
an empty path), or `scheme:rest` for non-special schemes. Exact for the
ordinary absolute URLs the claims evaluate. -/
def parseJsURL (s : String) : Option JsURL :=
  match strSplitOn s ":" with
  | [] => none
  | [_] => none
  | schemeRaw :: restParts =>
    if strIsEmpty schemeRaw then none
    else if !(schemeRaw.data.headD ' ').isAlpha then none
    else if !schemeRaw.data.all isSchemeChar then none
    else
      let scheme := strToLower schemeRaw
      let rest := String.intercalate ":" restParts
      if specialSchemes.contains scheme then
        if !strStartsWith rest "//" then none
        else
          let (auth, after) := splitAuthority (strDrop rest 2).data
          -- userinfo runs up to the last `@` of the authority
          let hostPort := match strSplitOn (String.mk auth) "@" with
                          | [] => ""
                          | parts => parts.getLastD ""
          -- an explicit port is split off at a final `:` when numeric
          let (hostname, port) :=
            match strSplitOn hostPort ":" with
            | [h] => (h, "")
            | [h, p] => if strIsEmpty p then (h, "") else (h, p)
            | _ => ("", "!")
          if strIsEmpty hostname || !hostname.data.all isHostChar ||
             !(port = "" || isDigits port) then none
          else
            let host := strToLower hostname ++ (if port = "" then "" else ":" ++ port)
            let path := if after.isEmpty then "/" else String.mk after
            some ⟨scheme ++ ":", host, scheme ++ "://" ++ host ++ path⟩
      else
        some ⟨scheme ++ ":", "", scheme ++ ":" ++ rest⟩

/-! ## The project manifest (`Partial<Manifest>`)

Only the keys `validateProjectManifest` and `createVsix` read are modelled;
object-valued keys keep just the sub-keys the source dereferences. An
`Option` captures a key that may be `undefined`. -/

structure Engines where
  vscode : Option String
deriving DecidableEq, Repr

structure Contributes where
  /-- presence of `contributes.languages` (an array, hence truthy whenever present) -/
  languages : Bool
  commands : Bool
  authentication : Bool
  customEditors : Bool
  views : Bool
deriving DecidableEq, Repr

structure Badge where
  url : String
  href : String
  description : String
deriving DecidableEq, Repr

/-- `dependencies`: only its `vscode` key is dereferenced. -/
structure Dependencies where
  vscode : Option String
deriving DecidableEq, Repr

/-- `devDependencies`: only its `"@types/vscode"` key is dereferenced. -/
structure DevDependencies where
  typesVscode : Option String
deriving DecidableEq, Repr

/-- `extensionKind` is a scalar or an array (`Array.isArray` decides). -/
inductive ExtensionKindField
  | scalar (value : String)
  | array (values : List String)
deriving DecidableEq, Repr

structure Sponsor where
  url : Option String
deriving DecidableEq, Repr

structure Manifest where
  name : Option String
  version : Option String
  publisher : Option String
  engines : Option Engines
  main : Option String
  browser : Option String
  activationEvents : Option (List String)
  contributes : Option Contributes
  pricing : Option String
  icon : Option String
  badges : Option (List Badge)
  dependencies : Option Dependencies
  devDependencies : Option DevDependencies
  extensionKind : Option ExtensionKindField
  sponsor : Option Sponsor
  preview : Option Bool
deriving DecidableEq, Repr

/-- The `ManifestValidationResult` union of `src/manifest.ts`, with the
`field` and `message` each variant's object carries at run time. The extra
`notImplemented` constructor mirrors the bare `{ type: "NOT_IMPLEMENTED" }`
object that `validateProjectManifest` pushes for `devDependencies` holding
`@types/vscode` — an object outside the declared union, carrying neither a
field nor a message. -/
inductive ManifestValidationResult
  | missingField (field : String) (message : String)
  | invalidVscodeEngineCompatibility (field : String) (message : String)
  | invalidName (field : String) (message : String)
  | invalidVersion (field : String) (message : String)
  | invalidPublisherName (field : String) (message : String)
  | invalidPricing (field : String) (message : String)
  | invalidIcon (field : String) (message : String)
  | invalidSponsorUrl (field : String) (message : String)
  | invalidExtensionKind (field : String) (message : String)
  | dependsOnVscodeInDependencies (field : String) (message : String)
  | invalidBadgeUrl (field : String) (message : String)
  | untrustedHost (field : String) (message : String)
  | notImplemented
deriving DecidableEq, Repr

/-- `true` exactly on the twelve declared variants, i.e. on every diagnostic
that carries a `field` and a `message`. -/
def isDeclaredDiagnostic : ManifestValidationResult → Bool
  | .notImplemented => false
  | _ => true

def ALLOWED_SPONSOR_PROTOCOLS : List String := ["http:", "https:"]
def VALID_EXTENSION_KINDS : List String := ["ui", "workspace"]
def EXTENSION_PRICING : List String := ["Free", "Trial"]

/-- Modelled from the spec: `VSCE_TRUSTED_SOURCES` is imported from
`src/constants.ts`, a source file not provided. The spec calls it "a fixed
trusted-host allow-list" of "code-hosting or badge-service domain[s]
pre-approved for embedding badge images" (§4.3 step 9, glossary, §9), and
the repository's tests treat `img.shields.io` as trusted; it is modelled as
a fixed list of well-known badge-service hosts. -/
def VSCE_TRUSTED_SOURCES : List String :=
  ["api.travis-ci.com", "api.travis-ci.org", "badge.fury.io", "badgen.net",
   "badges.gitter.im", "cdn.travis-ci.com", "cdn.travis-ci.org",
   "ci.appveyor.com", "circleci.com", "codacy.com", "codeclimate.com",
   "codecov.io", "coveralls.io", "david-dm.org", "gitlab.com",
   "img.shields.io", "isitmaintained.com", "marketplace.visualstudio.com",
   "opencollective.com", "snyk.io", "travis-ci.com", "travis-ci.org",
   "visualstudio.com", "vsmarketplacebadge.apphb.com"]

/-! ## `validateProjectManifest` (`src/manifest.ts`, lines 102–348)

Each check of the source is one definition below, in source order;
`validateErrors` is their concatenation, mirroring the single `errors`
array the source pushes to. -/

def nameRequiredDiag : ManifestValidationResult :=
  .missingField "name" "The `name` field is required."

def versionRequiredDiag : ManifestValidationResult :=
  .missingField "version" "The `version` field is required."

def publisherRequiredDiag : ManifestValidationResult :=
  .missingField "publisher" "The `publisher` field is required. Learn more: https://code.visualstudio.com/api/working-with-extensions/publishing-extension#publishing-extensions"

def enginesRequiredDiag : ManifestValidationResult :=
  .missingField "engines" "The `engines` field is required."

def enginesVscodeRequiredDiag : ManifestValidationResult :=
  .missingField "engines.vscode" "The `engines.vscode` field is required."

def invalidEngineDiag : ManifestValidationResult :=
  .invalidVscodeEngineCompatibility "engines.vscode" "Invalid vscode engine compatibility version"

def mainOrBrowserDiag : ManifestValidationResult :=
  .missingField "main or browser" "Manifest needs either a 'main' or 'browser' property, given it has a 'activationEvents' property."

def activationEventsMainDiag : ManifestValidationResult :=
  .missingField "activationEvents" "Manifest needs the 'activationEvents' property, given it has a 'main' property."

def activationEventsBrowserDiag : ManifestValidationResult :=
  .missingField "activationEvents" "Manifest needs the 'activationEvents' property, given it has a 'browser' property."

def untrustedHostDiag : ManifestValidationResult :=
  .untrustedHost "badges" "Badge URL must use a trusted host"

def nameDiags (m : Manifest) : List ManifestValidationResult :=
  if m.name = none then [nameRequiredDiag] else []

def versionDiags (m : Manifest) : List ManifestValidationResult :=
  if m.version = none then [versionRequiredDiag] else []

def publisherDiags (m : Manifest) : List ManifestValidationResult :=
  if m.publisher = none then [publisherRequiredDiag] else []

def enginesDiags (m : Manifest) : List ManifestValidationResult :=
  if m.engines = none then [enginesRequiredDiag] else []

/-- `manifest.engines?.vscode`. -/
def enginesVscode (m : Manifest) : Option String := m.engines.bind fun e => e.vscode

def enginesVscodeDiags (m : Manifest) : List ManifestValidationResult :=
  if enginesVscode m = none then [enginesVscodeRequiredDiag] else []

/-- `const vscodeEngineVersion = manifest.engines?.vscode ?? ""`. -/
def vscodeEngineVersion (m : Manifest) : String := (enginesVscode m).getD ""

def engineCompatDiags (m : Manifest) : List ManifestValidationResult :=
  if vscodeEngineRegexTest (vscodeEngineVersion m) then [] else [invalidEngineDiag]

def nameFormatDiags (m : Manifest) : List ManifestValidationResult :=
  if extensionNameRegexTest (m.name.getD "") then []
  else [.invalidName "name" "The `name` field must not contain spaces."]

def versionFormatDiags (m : Manifest) : List ManifestValidationResult :=
  if semverValid (m.version.getD "") then []
  else [.invalidVersion "version" "The `version` field must be a valid semver version."]

def publisherFormatDiags (m : Manifest) : List ManifestValidationResult :=
  let publisher := m.publisher.getD ""
  if extensionNameRegexTest publisher then []
  else [.invalidPublisherName "publisher" ("Invalid publisher name '" ++ publisher ++ "'. Expected the identifier of a publisher, not its human-friendly name. Learn more: https://code.visualstudio.com/api/working-with-extensions/publishing-extension#publishing-extensions")]

def pricingDiags (m : Manifest) : List ManifestValidationResult :=
  match m.pricing with
  | some p =>
      if !strIsEmpty p && !(EXTENSION_PRICING.contains p) then
        [.invalidPricing "pricing" "The `pricing` field must be either 'Free' or 'Paid'."]
      else []
  | none => []

def hasActivationEvents (m : Manifest) : Bool := m.activationEvents.isSome

def hasImplicitLanguageActivationEvents (m : Manifest) : Bool :=
  match m.contributes with
  | some c => c.languages
  | none => false

def hasOtherImplicitActivationEvents (m : Manifest) : Bool :=
  match m.contributes with
  | some c => c.commands || c.authentication || c.customEditors || c.views
  | none => false

def hasImplicitActivationEvents (m : Manifest) : Bool :=
  hasImplicitLanguageActivationEvents m || hasOtherImplicitActivationEvents m

def hasMain (m : Manifest) : Bool := truthyStr m.main
def hasBrowser (m : Manifest) : Bool := truthyStr m.browser

def activationDiags (m : Manifest) : List ManifestValidationResult :=
  if hasActivationEvents m ||
     ((vscodeEngineVersion m = "*" || semverSatisfiesGe174 (vscodeEngineVersion m)) &&
      hasImplicitActivationEvents m) then
    if !hasMain m && !hasBrowser m &&
       (hasActivationEvents m || !hasImplicitLanguageActivationEvents m) then
      [mainOrBrowserDiag]
    else []
  else if hasMain m then [activationEventsMainDiag]
  else if hasBrowser m then [activationEventsBrowserDiag]
  else []

def devDependenciesDiags (m : Manifest) : List ManifestValidationResult :=
  match m.devDependencies with
  | some d => if d.typesVscode.isSome then [.notImplemented] else []
  | none => []

def iconDiags (m : Manifest) : List ManifestValidationResult :=
  match m.icon with
  | some i =>
      if strEndsWith i ".svg" then
        [.invalidIcon "icon" "SVG icons are not supported. Use PNG icons instead."]
      else []
  | none => []

/-- The `try { srcURL = new URL(decodedUrl) } catch` block's push. -/
def badgeParseDiags (decodedUrl : String) : List ManifestValidationResult :=
  match parseJsURL decodedUrl with
  | none => [.invalidBadgeUrl "badges" ("The badge URL '" ++ decodedUrl ++ "' must be a valid URL.")]
  | some _ => []

def badgeProtocolDiags (decodedUrl : String) : List ManifestValidationResult :=
  if strStartsWith decodedUrl "https://" then []
  else [.invalidBadgeUrl "badges" "Badge URL must use the 'https' protocol"]

def badgeSvgDiags (decodedUrl : String) : List ManifestValidationResult :=
  if strEndsWith decodedUrl ".svg" then
    [.invalidBadgeUrl "badges" "SVG badges are not supported. Use PNG badges instead"]
  else []

/-- The trusted-host check (`srcURL && !((srcURL.host != null && …) || …)`);
a parsed URL's `host` is a string, never `null`. -/
def badgeTrustDiags (decodedUrl : String) : List ManifestValidationResult :=
  match parseJsURL decodedUrl with
  | some srcURL =>
      if VSCE_TRUSTED_SOURCES.contains (strToLower srcURL.host) || githubBadgeRegexTest srcURL.href then []
      else [untrustedHostDiag]
  | none => []

/-- One iteration of `for (const badge of manifest.badges)`. -/
def badgeDiags (badge : Badge) : List ManifestValidationResult :=
  let decodedUrl := decodeURIModel badge.url
  badgeParseDiags decodedUrl ++ badgeProtocolDiags decodedUrl ++
  badgeSvgDiags decodedUrl ++ badgeTrustDiags decodedUrl

def badgesDiags (m : Manifest) : List ManifestValidationResult :=
  match m.badges with
  | some bs => (bs.map badgeDiags).flatten
  | none => []

def dependenciesDiags (m : Manifest) : List ManifestValidationResult :=
  match m.dependencies with
  | some d =>
      if d.vscode.isSome then
        [.dependsOnVscodeInDependencies "dependencies.vscode" "You should not depend on 'vscode' in your 'dependencies'. Did you mean to add it to 'devDependencies'?"]
      else []
  | none => []

def extensionKindDiag1 (k : String) : List ManifestValidationResult :=
  if VALID_EXTENSION_KINDS.contains k then []
  else [.invalidExtensionKind "extensionKind" ("Invalid extension kind '" ++ k ++ "'. Expected one of: ui, workspace")]

def extensionKindDiags (m : Manifest) : List ManifestValidationResult :=
  match m.extensionKind with
  | none => []
  | some ek =>
      let extensionKinds := match ek with
                            | .array vs => vs
                            | .scalar v => [v]
      (extensionKinds.map extensionKindDiag1).flatten

def sponsorDiags (m : Manifest) : List ManifestValidationResult :=
  match m.sponsor with
  | none => []
  | some sp =>
    match sp.url with
    | none => []
    | some u =>
      match parseJsURL u with
      | some sponsorUrl =>
          if !(ALLOWED_SPONSOR_PROTOCOLS.contains sponsorUrl.protocol) then
            [.invalidSponsorUrl "sponsor.url" ("The protocol '" ++ strDropRight sponsorUrl.protocol 1 ++ "' is not allowed. Use one of: http, https")]
          else []
      | none => [.invalidSponsorUrl "sponsor.url" "The `sponsor.url` field must be a valid URL."]

/-- The `errors` array at the end of `validateProjectManifest`, in push
order. -/
def validateErrors (m : Manifest) : List ManifestValidationResult :=
  nameDiags m ++ versionDiags m ++ publisherDiags m ++ enginesDiags m ++
  enginesVscodeDiags m ++ engineCompatDiags m ++ nameFormatDiags m ++
  versionFormatDiags m ++ publisherFormatDiags m ++ pricingDiags m ++
  activationDiags m ++ devDependenciesDiags m ++ iconDiags m ++
  badgesDiags m ++ dependenciesDiags m ++ extensionKindDiags m ++
  sponsorDiags m

/-- `validateProjectManifest`: `null` (here `none`) when no diagnostics
accumulated, otherwise the full array. -/
def validateProjectManifest (m : Manifest) : Option (List ManifestValidationResult) :=
  if (validateErrors m).length > 0 then some (validateErrors m) else none

/-! ## `escapeXml` and `toVsixManifest` (`src/manifest.ts`, lines 350–511) -/

/-- One step of `value.replace(/(['"<>&])/g, (_, char) => escapeChars.get(char)!)`:
the five reserved markup characters map to their entities, every other
character to itself. -/
def escapeXmlChar (c : Char) : List Char :=
  if c = '\'' then "&apos;".data
  else if c = '"' then "&quot;".data
  else if c = '<' then "&lt;".data
  else if c = '>' then "&gt;".data
  else if c = '&' then "&amp;".data
  else [c]

def escapeXmlData : List Char → List Char
  | [] => []
  | c :: cs => escapeXmlChar c ++ escapeXmlData cs

/-- `escapeXml` of `src/manifest.ts`: a single global-replace pass. -/
def escapeXml (s : String) : String := ⟨escapeXmlData s.data⟩

/-- `customerQnALink?: "marketplace" | string | false`. -/
inductive CustomerQnALink
  | str (s : String)
  | fls
deriving DecidableEq, Repr

/-- `String(value)` for a `customerQnALink` value. -/
def CustomerQnALink.jsString : CustomerQnALink → String
  | .str s => s
  | .fls => "false"

structure VsixAsset where
  type : String
  path : String
deriving DecidableEq, Repr

structure VsixLinks where
  repository : Option String
  bugs : Option String
  homepage : Option String
  github : Option String
deriving DecidableEq, Repr

structure GalleryBanner where
  color : Option String
  theme : Option String
deriving DecidableEq, Repr

/-- The `VsixManifest` interface of `src/manifest.ts`. -/
structure VsixManifest where
  id : String
  displayName : String
  version : String
  publisher : Option String
  target : Option String
  engine : String
  description : String
  categories : String
  flags : String
  icon : Option String
  license : Option String
  assets : List VsixAsset
  tags : String
  links : VsixLinks
  galleryBanner : GalleryBanner
  badges : Option (List Badge)
  githubMarkdown : Bool
  enableMarketplaceQnA : Option Bool
  customerQnALink : Option CustomerQnALink
  extensionDependencies : String
  extensionPack : String
  extensionKind : String
  localizedLanguages : String
  enabledApiProposals : String
  preRelease : Bool
  sponsorLink : String
  pricing : String
  executesCode : Bool
deriving DecidableEq, Repr

def badgeXml (badge : Badge) : String :=
  "<Badge Link=\"" ++ escapeXml badge.href ++ "\" ImgUri=\"" ++ escapeXml badge.url ++
  "\" Description=\"" ++ escapeXml badge.description ++ "\" />"

/-- `!manifest.badges ? "" : `<Badges>...</Badges>``. -/
def badgesXml : Option (List Badge) → String
  | none => ""
  | some bs => "<Badges>" ++ String.intercalate "\n" (bs.map badgeXml) ++ "</Badges>"

def assetXml (asset : VsixAsset) : String :=
  "<Asset Type=\"" ++ escapeXml asset.type ++ "\" Path=\"" ++ escapeXml asset.path ++
  "\" Addressable=\"true\" />"

/-- The fixed text of the document up to the `Id="` attribute of
`<Identity>`, where the first interpolation (`escapeXml(manifest.id)`)
is embedded. -/
def vsixHead : String :=
  "<?xml version=\"1.0\" encoding=\"utf-8\"?>\n\t<PackageManifest Version=\"2.0.0\" xmlns=\"http://schemas.microsoft.com/developer/vsx-schema/2011\" xmlns:d=\"http://schemas.microsoft.com/developer/vsx-schema-design/2011\">\n\t\t<Metadata>\n\t\t\t<Identity Language=\"en-US\" Id=\""

/-- The document text between the `id` and `displayName` interpolations:
the rest of `<Identity>` (version, publisher, the conditional
`TargetPlatform` attribute) and the opening `<DisplayName>` tag. -/
def vsixIdentityTail (version : String) (publisher : Option String) (target : Option String) : String :=
  "\" Version=\"" ++ escapeXml version ++ "\" Publisher=\"" ++ escapeXml (jsShow publisher) ++ "\" " ++
  (if truthyStr target then "TargetPlatform=\"" ++ escapeXml (target.getD "") ++ "\"" else "") ++
  "/>\n\t\t\t<DisplayName>"

/-- The document from the closing `</DisplayName>` tag to the end: every
remaining interpolation of the source template in order, each textual value
wrapped in `escapeXml`, each optional section emitted only when its source
field is truthy (respectively, for the Q&A fields, not `undefined`). -/
def vsixBody (m : VsixManifest) : String :=
  "</DisplayName>\n\t\t\t<Description xml:space=\"preserve\">" ++ escapeXml m.description ++
  "</Description>\n\t\t\t<Tags>" ++ escapeXml m.tags ++
  "</Tags>\n\t\t\t<Categories>" ++ escapeXml m.categories ++
  "</Categories>\n\t\t\t<GalleryFlags>" ++ escapeXml m.flags ++
  "</GalleryFlags>\n\t\t\t" ++ badgesXml m.badges ++
  "\n\t\t\t<Properties>\n\t\t\t\t<Property Id=\"Microsoft.VisualStudio.Code.Engine\" Value=\"" ++ escapeXml m.engine ++
  "\" />\n\t\t\t\t<Property Id=\"Microsoft.VisualStudio.Code.ExtensionDependencies\" Value=\"" ++ escapeXml m.extensionDependencies ++
  "\" />\n\t\t\t\t<Property Id=\"Microsoft.VisualStudio.Code.ExtensionPack\" Value=\"" ++ escapeXml m.extensionPack ++
  "\" />\n\t\t\t\t<Property Id=\"Microsoft.VisualStudio.Code.ExtensionKind\" Value=\"" ++ escapeXml m.extensionKind ++
  "\" />\n\t\t\t\t<Property Id=\"Microsoft.VisualStudio.Code.LocalizedLanguages\" Value=\"" ++ escapeXml m.localizedLanguages ++
  "\" />\n\t\t\t\t<Property Id=\"Microsoft.VisualStudio.Code.EnabledApiProposals\" Value=\"" ++ escapeXml m.enabledApiProposals ++
  "\" />\n\t\t\t\t" ++
  (if m.preRelease then "<Property Id=\"Microsoft.VisualStudio.Code.PreRelease\" Value=\"" ++ escapeXml (jsBool m.preRelease) ++ "\" />" else "") ++
  "\n\t\t\t\t" ++
  (if m.executesCode then "<Property Id=\"Microsoft.VisualStudio.Code.ExecutesCode\" Value=\"" ++ escapeXml (jsBool m.executesCode) ++ "\" />" else "") ++
  "\n\t\t\t\t" ++
  (if !strIsEmpty m.sponsorLink then "<Property Id=\"Microsoft.VisualStudio.Code.SponsorLink\" Value=\"" ++ escapeXml m.sponsorLink ++ "\" />" else "") ++
  "\n\t\t\t\t" ++
  (if truthyStr m.links.repository then
     "<Property Id=\"Microsoft.VisualStudio.Services.Links.Source\" Value=\"" ++ escapeXml (m.links.repository.getD "") ++
     "\" />\n\t\t\t\t<Property Id=\"Microsoft.VisualStudio.Services.Links.Getstarted\" Value=\"" ++ escapeXml (m.links.repository.getD "") ++
     "\" />\n\t\t\t\t" ++
     (if truthyStr m.links.github then
        "<Property Id=\"Microsoft.VisualStudio.Services.Links.GitHub\" Value=\"" ++ escapeXml (m.links.github.getD "") ++ "\" />"
      else
        "<Property Id=\"Microsoft.VisualStudio.Services.Links.Repository\" Value=\"" ++ escapeXml (m.links.repository.getD "") ++ "\" />")
   else "") ++
  "\n\t\t\t\t" ++
  (if truthyStr m.links.bugs then "<Property Id=\"Microsoft.VisualStudio.Services.Links.Support\" Value=\"" ++ escapeXml (m.links.bugs.getD "") ++ "\" />" else "") ++
  "\n\t\t\t\t" ++
  (if truthyStr m.links.homepage then "<Property Id=\"Microsoft.VisualStudio.Services.Links.Learn\" Value=\"" ++ escapeXml (m.links.homepage.getD "") ++ "\" />" else "") ++
  "\n\t\t\t\t" ++
  (if truthyStr m.galleryBanner.color then "<Property Id=\"Microsoft.VisualStudio.Services.Branding.Color\" Value=\"" ++ escapeXml (m.galleryBanner.color.getD "") ++ "\" />" else "") ++
  "\n\t\t\t\t" ++
  (if truthyStr m.galleryBanner.theme then "<Property Id=\"Microsoft.VisualStudio.Services.Branding.Theme\" Value=\"" ++ escapeXml (m.galleryBanner.theme.getD "") ++ "\" />" else "") ++
  "\n\t\t\t\t<Property Id=\"Microsoft.VisualStudio.Services.GitHubFlavoredMarkdown\" Value=\"" ++ escapeXml (jsBool m.githubMarkdown) ++
  "\" />\n\t\t\t\t<Property Id=\"Microsoft.VisualStudio.Services.Content.Pricing\" Value=\"" ++ escapeXml m.pricing ++
  "\"/>\n\n\t\t\t\t" ++
  (match m.enableMarketplaceQnA with
   | some qna => "<Property Id=\"Microsoft.VisualStudio.Services.EnableMarketplaceQnA\" Value=\"" ++ escapeXml (jsBool qna) ++ "\" />"
   | none => "") ++
  "\n\t\t\t\t" ++
  (match m.customerQnALink with
   | some link => "<Property Id=\"Microsoft.VisualStudio.Services.CustomerQnALink\" Value=\"" ++ escapeXml link.jsString ++ "\" />"
   | none => "") ++
  "\n\t\t\t</Properties>\n\t\t\t" ++
  (if truthyStr m.license then "<License>" ++ escapeXml (m.license.getD "") ++ "</License>" else "") ++
  "\n\t\t\t" ++
  (if truthyStr m.icon then "<Icon>" ++ escapeXml (m.icon.getD "") ++ "</Icon>" else "") ++
  "\n\t\t</Metadata>\n\t\t<Installation>\n\t\t\t<InstallationTarget Id=\"Microsoft.VisualStudio.Code\"/>\n\t\t</Installation>\n\t\t<Dependencies/>\n\t\t<Assets>\n\t\t\t<Asset Type=\"Microsoft.VisualStudio.Code.Manifest\" Path=\"package.json\" Addressable=\"true\" />\n\t\t\t" ++
  String.intercalate "\n" (m.assets.map assetXml) ++
  "\n\t\t</Assets>\n\t</PackageManifest>"

/-- `toVsixManifest`: the template literal of `src/manifest.ts`, split at its
first two interpolations (`escapeXml(manifest.id)` and
`escapeXml(manifest.displayName)`). -/
def toVsixManifest (m : VsixManifest) : String :=
  vsixHead ++ escapeXml m.id ++ vsixIdentityTail m.version m.publisher m.target ++
  escapeXml m.displayName ++ vsixBody m

/-! ## The `createVsix` orchestrator

Shallow embedding of `createVsix` (the variant kept as an unnamed source
file of the repository, whose body extends `src/index.ts` with the
missing-package-manager and write-error paths; the `src/index.ts` variant
is identical on the refusal and file-list paths the claims concern). The
external collaborators it sequences (`readProjectManifest`,
`validateProjectManifest`, `getExtensionDependencies`, `prepublish`,
`collect`, `processFiles`, `createVsixManifest`, `getContentTypesForFiles`,
`existsSync`, `writeVsix` — all imported from `vsix-utils` or `node:fs`)
are modelled by an environment record holding each one's result, and every
invocation is recorded in a trace. -/

/-- The `VsixFile` union: a collected on-disk entry or an in-memory buffer
(`contents` modelled as the UTF-8 string the `Buffer` holds). -/
inductive VsixFile
  | localFile (path : String) (localPath : String)
  | inMemory (path : String) (contents : String)
deriving DecidableEq, Repr

def VsixFile.path : VsixFile → String
  | .localFile p _ => p
  | .inMemory p _ => p

/-- The `errors` union of `CreateVsixResult`. -/
inductive VsixError
  | validation (v : ManifestValidationResult)
  | writeError (message : String)
  | missingPackageManager (message : String)
deriving DecidableEq, Repr

structure CreateVsixResult where
  files : List VsixFile
  vsixPath : Option String
  written : Bool
  manifest : Option Manifest
  errors : List VsixError
deriving DecidableEq, Repr

/-- One collaborator invocation, with the argument where a claim depends
on it. -/
inductive TraceEvent
  | readProjectManifestCall
  | validateProjectManifestCall
  | getExtensionDependenciesCall
  | prepublishCall
  | collectCall
  | processFilesCall
  | createVsixManifestCall
  | getContentTypesForFilesCall (files : List VsixFile)
  | existsSyncCall (path : String)
  | writeVsixCall (files : List VsixFile) (packagePath : String)
deriving DecidableEq, Repr

def TraceEvent.isSynthesizerCall : TraceEvent → Bool
  | .createVsixManifestCall => true
  | _ => false

def TraceEvent.isContentTypesCall : TraceEvent → Bool
  | .getContentTypesForFilesCall _ => true
  | _ => false

def TraceEvent.isWriteCall : TraceEvent → Bool
  | .writeVsixCall _ _ => true
  | _ => false

def TraceEvent.isExistsSyncCall : TraceEvent → Bool
  | .existsSyncCall _ => true
  | _ => false

structure ProjectManifestR where
  fileName : String
  manifest : Manifest
deriving DecidableEq, Repr

/-- `getExtensionDependencies` result: `{ dependencies, packageManager }`. -/
structure ExtensionDependenciesResult where
  dependencies : List String
  packageManager : Option String
deriving DecidableEq, Repr

/-- The `Options` record of `createVsix`. -/
structure Options where
  cwd : Option String
  packageManager : Option String
  packagePath : Option String
  ignoreFile : Option String
  dependencies : Option (List String)
  write : Option Bool
  forceWrite : Option Bool
  preRelease : Option Bool
  readme : Option String
  skipScripts : Option Bool
deriving DecidableEq, Repr

/-- The collaborators' results for one run. -/
structure Env where
  /-- `readProjectManifest(cwd)` (`none` = `null`). -/
  projectManifest : Option ProjectManifestR
  /-- `validateProjectManifest(manifest)` (`none` = `null`). -/
  validationResult : Option (List ManifestValidationResult)
  /-- `getExtensionDependencies(manifest, …)`. -/
  extensionDependencies : ExtensionDependenciesResult
  /-- `collect(manifest, …)`. -/
  collected : List VsixFile
  /-- `processFiles(…).assets`. -/
  assets : List VsixAsset
  /-- `processFiles(…).icon`. -/
  icon : Option String
  /-- `processFiles(…).license`. -/
  license : Option String
  /-- `createVsixManifest(manifest, …)`. -/
  vsixManifestDoc : String
  /-- `getContentTypesForFiles(files).file`. -/
  contentTypesFile : String
  /-- `existsSync(packagePath)`. -/
  packagePathExists : Bool
  /-- whether `writeVsix(…)` resolves (rather than throws). -/
  writeVsixSucceeds : Bool
deriving DecidableEq, Repr

/-- The run from `getExtensionDependencies` onward (after the validation
gate has passed). -/
def createVsixAfterValidation (options : Options) (env : Env) (manifest : Manifest)
    (packagePath : String) : CreateVsixResult × List TraceEvent :=
  let preTrace := [TraceEvent.readProjectManifestCall, TraceEvent.validateProjectManifestCall,
                   TraceEvent.getExtensionDependenciesCall]
  -- can't run scripts if package manager is not found
  if env.extensionDependencies.packageManager = none ∧ options.skipScripts ≠ some true then
    ({ files := [], vsixPath := none, written := false, manifest := some manifest,
       errors := [.missingPackageManager "The package manager could not be determined."] },
     preTrace)
  else
    let trace1 := preTrace ++
      (if env.extensionDependencies.packageManager ≠ none ∧ options.skipScripts ≠ some true then
         [TraceEvent.prepublishCall] else [])
    let files := env.collected
    let vsixManifest := env.vsixManifestDoc
    let file := env.contentTypesFile
    let files2 := files ++
      [VsixFile.inMemory "extension.vsixmanifest" vsixManifest,
       VsixFile.inMemory "[Content_Types].xml" file]
    let trace2 := trace1 ++
      [TraceEvent.collectCall, TraceEvent.processFilesCall,
       TraceEvent.createVsixManifestCall, TraceEvent.getContentTypesForFilesCall files]
    if options.write.getD true then
      if env.packagePathExists && !(options.forceWrite.getD false) then
        ({ files := files2, vsixPath := some packagePath, written := false,
           manifest := some manifest,
           errors := [.writeError ("The file already exists at " ++ packagePath ++ ", use the forceWrite option to overwrite it.")] },
         trace2 ++ [TraceEvent.existsSyncCall packagePath])
      else
        ({ files := files2, vsixPath := some packagePath, written := env.writeVsixSucceeds,
           manifest := some manifest, errors := [] },
         trace2 ++ [TraceEvent.existsSyncCall packagePath,
                    TraceEvent.writeVsixCall files2 packagePath])
    else
      ({ files := files2, vsixPath := some packagePath, written := false,
         manifest := some manifest, errors := [] },
       trace2)

/-- `createVsix(options)`: the `null`-manifest early return, the validation
gate, then `createVsixAfterValidation`. -/
def createVsix (options : Options) (env : Env) : CreateVsixResult × List TraceEvent :=
  match env.projectManifest with
  | none =>
      ({ files := [], vsixPath := none, written := false, manifest := none, errors := [] },
       [TraceEvent.readProjectManifestCall])
  | some projectManifest =>
    let manifest := projectManifest.manifest
    let packagePath := options.packagePath.getD
      (jsShow manifest.name ++ "-" ++ jsShow manifest.version ++ ".vsix")
    let validationErrors := env.validationResult
    if (validationErrors.getD []).length > 0 then
      ({ files := [], vsixPath := none, written := false, manifest := some manifest,
         errors := (validationErrors.getD []).map .validation },
       [TraceEvent.readProjectManifestCall, TraceEvent.validateProjectManifestCall])
    else
      createVsixAfterValidation options env manifest packagePath

/-! ## Escaping safety -/

/-- A character sequence in which none of `' " < >` occurs at all and every
`&` begins one of the five escape entities. -/
inductive EntitySafe : List Char → Prop
  | nil : EntitySafe []
  | ch (c : Char) (rest : List Char) :
      c ≠ '\'' → c ≠ '"' → c ≠ '<' → c ≠ '>' → c ≠ '&' →
      EntitySafe rest → EntitySafe (c :: rest)
  | apos (rest : List Char) : EntitySafe rest →
      EntitySafe ('&' :: 'a' :: 'p' :: 'o' :: 's' :: ';' :: rest)
  | quot (rest : List Char) : EntitySafe rest →
      EntitySafe ('&' :: 'q' :: 'u' :: 'o' :: 't' :: ';' :: rest)
  | lt (rest : List Char) : EntitySafe rest →
      EntitySafe ('&' :: 'l' :: 't' :: ';' :: rest)
  | gt (rest : List Char) : EntitySafe rest →
      EntitySafe ('&' :: 'g' :: 't' :: ';' :: rest)
  | amp (rest : List Char) : EntitySafe rest →
      EntitySafe ('&' :: 'a' :: 'm' :: 'p' :: ';' :: rest)

/-- Occurrences of a character in a string. -/
def countChar (c : Char) (s : String) : Nat := s.data.count c

/-! ## Concrete inputs used by the counterexamples and witnesses -/

/-- `{}`: the manifest with every modelled key `undefined`. -/
def emptyManifest : Manifest :=
  { name := none, version := none, publisher := none, engines := none,
    main := none, browser := none, activationEvents := none, contributes := none,
    pricing := none, icon := none, badges := none, dependencies := none,
    devDependencies := none, extensionKind := none, sponsor := none, preview := none }

/-- `{name:"test-project", version:"1.0.0", publisher:"test",
engines:{vscode:"^1.0.0"}}`: the minimal valid manifest of the test suite. -/
def validBaseManifest : Manifest :=
  { emptyManifest with
    name := some "test-project"
    version := some "1.0.0"
    publisher := some "test"
    engines := some ⟨some "^1.0.0"⟩ }

/-- C2: `contributes` declares both `languages` and `commands`, the engine
range is `*`, there are no explicit activation events and no
`main`/`browser`. -/
def languagesAndCommandsManifest : Manifest :=
  { validBaseManifest with
    engines := some ⟨some "*"⟩
    contributes := some ⟨true, true, false, false, false⟩ }

/-- C2 witness: a valid manifest with explicit activation events and no
`main`/`browser`. -/
def activationEventsOnlyManifest : Manifest :=
  { validBaseManifest with
    activationEvents := some ["onCommand:demo.hello"] }

/-- C3: a valid manifest whose `devDependencies` holds `@types/vscode`. -/
def typesVscodeManifest : Manifest :=
  { validBaseManifest with
    devDependencies := some ⟨some "^1.74.0"⟩ }

/-- C4: `{name:"demo", version:"1.0.0", publisher:"acme",
engines:{vscode:"^1.0.0"}, devDependencies:{"@types/vscode":"^1.74.0"}}` —
every required and optional field present is well-formed. -/
def wellFormedDevDepsManifest : Manifest :=
  { emptyManifest with
    name := some "demo"
    version := some "1.0.0"
    publisher := some "acme"
    engines := some ⟨some "^1.0.0"⟩
    devDependencies := some ⟨some "^1.74.0"⟩ }

/-- C5: the badge scenario
`badges:[{url:"http://img.example.com/b.png", href:"https://example.com", description:"x"}]`
on an otherwise-valid manifest. -/
def httpBadgeManifest : Manifest :=
  { emptyManifest with
    name := some "demo"
    version := some "1.0.0"
    publisher := some "acme"
    engines := some ⟨some "^1.0.0"⟩
    badges := some [⟨"http://img.example.com/b.png", "https://example.com", "x"⟩] }

/-- The https-protocol badge diagnostic C5 predicts. -/
def httpsProtocolBadgeDiag : ManifestValidationResult :=
  .invalidBadgeUrl "badges" "Badge URL must use the 'https' protocol"

/-- `createVsix` options with every key `undefined`. -/
def defaultOptions : Options :=
  { cwd := none, packageManager := none, packagePath := none, ignoreFile := none,
    dependencies := none, write := none, forceWrite := none, preRelease := none,
    readme := none, skipScripts := none }

/-- A collaborator environment for a fully successful run. -/
def happyEnv : Env :=
  { projectManifest := some ⟨"/proj/package.json", validBaseManifest⟩,
    validationResult := none,
    extensionDependencies := ⟨[], some "npm"⟩,
    collected := [VsixFile.localFile "extension/package.json" "/proj/package.json",
                  VsixFile.localFile "extension/README.md" "/proj/README.md"],
    assets := [⟨"Microsoft.VisualStudio.Services.Content.Details", "extension/README.md"⟩],
    icon := none, license := none,
    vsixManifestDoc := "<PackageManifest/>",
    contentTypesFile := "<Types/>",
    packagePathExists := false,
    writeVsixSucceeds := true }

/-- An environment in which validation fails with two diagnostics. -/
def failingEnv : Env :=
  { happyEnv with
    projectManifest := some ⟨"/proj/package.json", emptyManifest⟩
    validationResult := some [nameRequiredDiag, versionRequiredDiag] }

/-- C10: a dry-run (`write: false`) whose package manager cannot be
determined and whose scripts are not skipped. -/
def dryRunOptions : Options :=
  { defaultOptions with write := some false }

def noPackageManagerEnv : Env :=
  { happyEnv with extensionDependencies := ⟨[], none⟩ }

/-- Replacing the two textual fields the C8 scenario varies. -/
def setIdAndDisplayName (m : VsixManifest) (i d : String) : VsixManifest :=
  { m with id := i, displayName := d }

/-- A concrete synthesizer input for the escaping witness. -/
def sampleVsixManifest : VsixManifest :=
  { id := "demo", displayName := "Demo", version := "1.0.0", publisher := some "acme",
    target := none, engine := "^1.74.0", description := "desc", categories := "Other",
    flags := "Public", icon := none, license := none, assets := [], tags := "tag",
    links := ⟨none, none, none, none⟩, galleryBanner := ⟨none, none⟩, badges := none,
    githubMarkdown := true, enableMarketplaceQnA := none, customerQnALink := none,
    extensionDependencies := "", extensionPack := "", extensionKind := "ui",
    localizedLanguages := "", enabledApiProposals := "", preRelease := false,
    sponsorLink := "", pricing := "Free", executesCode := false }

/-! ## Helper lemmas: where each diagnostic can come from

For each check of `validateProjectManifest`, how often a given diagnostic
occurs in its output. Together these locate every diagnostic kind at the
unique check that emits it. -/

theorem count_singleton_ne (a d : ManifestValidationResult) (h : d ≠ a) :
    ([a]).count d = 0 := by
  simp [List.count_cons, List.count_nil, h]

theorem count_if_singleton (c : Prop) [Decidable c] (a d : ManifestValidationResult) :
    (if c then [a] else []).count d = if c ∧ d = a then 1 else 0 := by
  by_cases hc : c <;> by_cases hd : d = a <;> simp [hc, hd, List.count_cons]

theorem count_if_singleton_ne (c : Prop) [Decidable c] (a d : ManifestValidationResult)
    (h : d ≠ a) : (if c then [a] else []).count d = 0 := by
  rw [count_if_singleton]; simp [h]

theorem count_if_nil_singleton_ne (c : Prop) [Decidable c] (a d : ManifestValidationResult)
    (h : d ≠ a) : (if c then [] else [a]).count d = 0 := by
  by_cases hc : c <;> simp [hc, List.count_cons, h]

theorem count_nameDiags (m : Manifest) (d : ManifestValidationResult) :
    (nameDiags m).count d = if m.name = none ∧ d = nameRequiredDiag then 1 else 0 := by
  unfold nameDiags; rw [count_if_singleton]

theorem count_versionDiags (m : Manifest) (d : ManifestValidationResult) :
    (versionDiags m).count d = if m.version = none ∧ d = versionRequiredDiag then 1 else 0 := by
  unfold versionDiags; rw [count_if_singleton]

theorem count_publisherDiags (m : Manifest) (d : ManifestValidationResult) :
    (publisherDiags m).count d = if m.publisher = none ∧ d = publisherRequiredDiag then 1 else 0 := by
  unfold publisherDiags; rw [count_if_singleton]

theorem count_enginesDiags (m : Manifest) (d : ManifestValidationResult) :
    (enginesDiags m).count d = if m.engines = none ∧ d = enginesRequiredDiag then 1 else 0 := by
  unfold enginesDiags; rw [count_if_singleton]

theorem count_enginesVscodeDiags (m : Manifest) (d : ManifestValidationResult) :
    (enginesVscodeDiags m).count d =
      if enginesVscode m = none ∧ d = enginesVscodeRequiredDiag then 1 else 0 := by
  unfold enginesVscodeDiags; rw [count_if_singleton]

theorem count_engineCompatDiags (m : Manifest) (d : ManifestValidationResult)
    (h : ∀ f msg, d ≠ .invalidVscodeEngineCompatibility f msg) :
    (engineCompatDiags m).count d = 0 := by
  unfold engineCompatDiags
  exact count_if_nil_singleton_ne _ _ _ (h _ _)

theorem count_engineCompatDiags_self (m : Manifest) :
    (engineCompatDiags m).count invalidEngineDiag =
      if vscodeEngineRegexTest (vscodeEngineVersion m) then 0 else 1 := by
  unfold engineCompatDiags
  split <;> simp [List.count_cons]

theorem count_nameFormatDiags (m : Manifest) (d : ManifestValidationResult)
    (h : ∀ f msg, d ≠ .invalidName f msg) : (nameFormatDiags m).count d = 0 := by
  unfold nameFormatDiags
  exact count_if_nil_singleton_ne _ _ _ (h _ _)

theorem count_versionFormatDiags (m : Manifest) (d : ManifestValidationResult)
    (h : ∀ f msg, d ≠ .invalidVersion f msg) : (versionFormatDiags m).count d = 0 := by
  unfold versionFormatDiags
  exact count_if_nil_singleton_ne _ _ _ (h _ _)

theorem count_publisherFormatDiags (m : Manifest) (d : ManifestValidationResult)
    (h : ∀ f msg, d ≠ .invalidPublisherName f msg) : (publisherFormatDiags m).count d = 0 := by
  unfold publisherFormatDiags
  exact count_if_nil_singleton_ne _ _ _ (h _ _)

theorem count_pricingDiags (m : Manifest) (d : ManifestValidationResult)
    (h : ∀ f msg, d ≠ .invalidPricing f msg) : (pricingDiags m).count d = 0 := by
  unfold pricingDiags
  cases m.pricing with
  | none => simp
  | some p => exact count_if_singleton_ne _ _ _ (h _ _)

theorem count_activationDiags_ne (m : Manifest) (d : ManifestValidationResult)
    (h1 : d ≠ mainOrBrowserDiag) (h2 : d ≠ activationEventsMainDiag)
    (h3 : d ≠ activationEventsBrowserDiag) : (activationDiags m).count d = 0 := by
  unfold activationDiags
  split_ifs <;> simp [List.count_cons, h1, h2, h3]

theorem count_devDependenciesDiags (m : Manifest) (d : ManifestValidationResult)
    (h : d ≠ .notImplemented) : (devDependenciesDiags m).count d = 0 := by
  unfold devDependenciesDiags
  cases m.devDependencies with
  | none => simp
  | some dd => exact count_if_singleton_ne _ _ _ h

theorem count_iconDiags (m : Manifest) (d : ManifestValidationResult)
    (h : ∀ f msg, d ≠ .invalidIcon f msg) : (iconDiags m).count d = 0 := by
  unfold iconDiags
  cases m.icon with
  | none => simp
  | some i => exact count_if_singleton_ne _ _ _ (h _ _)

theorem count_badgeDiags (b : Badge) (d : ManifestValidationResult)
    (h1 : ∀ f msg, d ≠ .invalidBadgeUrl f msg) (h2 : ∀ f msg, d ≠ .untrustedHost f msg) :
    (badgeDiags b).count d = 0 := by
  have p1 : ∀ u, (badgeParseDiags u).count d = 0 := by
    intro u; unfold badgeParseDiags
    cases parseJsURL u
    · exact count_singleton_ne _ _ (h1 _ _)
    · simp
  have p2 : ∀ u, (badgeProtocolDiags u).count d = 0 := by
    intro u; unfold badgeProtocolDiags
    exact count_if_nil_singleton_ne _ _ _ (h1 _ _)
  have p3 : ∀ u, (badgeSvgDiags u).count d = 0 := by
    intro u; unfold badgeSvgDiags
    exact count_if_singleton_ne _ _ _ (h1 _ _)
  have p4 : ∀ u, (badgeTrustDiags u).count d = 0 := by
    intro u; unfold badgeTrustDiags
    cases parseJsURL u
    · simp
    · exact count_if_nil_singleton_ne _ _ _ (h2 _ _)
  simp [badgeDiags, List.count_append, p1, p2, p3, p4]

theorem count_badgesDiags (m : Manifest) (d : ManifestValidationResult)
    (h1 : ∀ f msg, d ≠ .invalidBadgeUrl f msg) (h2 : ∀ f msg, d ≠ .untrustedHost f msg) :
    (badgesDiags m).count d = 0 := by
  unfold badgesDiags
  cases m.badges with
  | none => simp
  | some bs =>
      induction bs with
      | nil => simp
      | cons b bs ih =>
          simp [List.count_append, count_badgeDiags b d h1 h2] at ih ⊢
          exact ih

theorem count_dependenciesDiags (m : Manifest) (d : ManifestValidationResult)
    (h : ∀ f msg, d ≠ .dependsOnVscodeInDependencies f msg) :
    (dependenciesDiags m).count d = 0 := by
  unfold dependenciesDiags
  cases m.dependencies with
  | none => simp
  | some dp => exact count_if_singleton_ne _ _ _ (h _ _)

theorem count_extensionKindDiags (m : Manifest) (d : ManifestValidationResult)
    (h : ∀ f msg, d ≠ .invalidExtensionKind f msg) : (extensionKindDiags m).count d = 0 := by
  have p1 : ∀ v, (extensionKindDiag1 v).count d = 0 := by
    intro v; unfold extensionKindDiag1
    exact count_if_nil_singleton_ne _ _ _ (h _ _)
  unfold extensionKindDiags
  cases m.extensionKind with
  | none => simp
  | some ek =>
      cases ek with
      | scalar v => simp [p1]
      | array vs =>
          induction vs with
          | nil => simp
          | cons v vs ih => simp [List.count_append, p1] at ih ⊢; exact ih

theorem count_sponsorDiags (m : Manifest) (d : ManifestValidationResult)
    (h : ∀ f msg, d ≠ .invalidSponsorUrl f msg) : (sponsorDiags m).count d = 0 := by
  unfold sponsorDiags
  cases hsp : m.sponsor with
  | none => simp
  | some sp =>
      cases hu : sp.url with
      | none => simp [hu]
      | some u =>
          cases hp : parseJsURL u with
          | none => simp only [hu, hp]; exact count_singleton_ne _ _ (h _ _)
          | some su => simp only [hu, hp]; exact count_if_singleton_ne _ _ _ (h _ _)

/-- A `MISSING_FIELD` diagnostic occurs in `validateProjectManifest`'s
output exactly as often as the five presence checks emit it (the
activation-consistency check, the only other source of `MISSING_FIELD`,
is excluded by the hypotheses). -/
theorem count_validateErrors_presence (m : Manifest) (f msg : String)
    (h1 : ManifestValidationResult.missingField f msg ≠ mainOrBrowserDiag)
    (h2 : ManifestValidationResult.missingField f msg ≠ activationEventsMainDiag)
    (h3 : ManifestValidationResult.missingField f msg ≠ activationEventsBrowserDiag) :
    (validateErrors m).count (.missingField f msg) =
      (if m.name = none ∧ ManifestValidationResult.missingField f msg = nameRequiredDiag then 1 else 0) +
      (if m.version = none ∧ ManifestValidationResult.missingField f msg = versionRequiredDiag then 1 else 0) +
      (if m.publisher = none ∧ ManifestValidationResult.missingField f msg = publisherRequiredDiag then 1 else 0) +
      (if m.engines = none ∧ ManifestValidationResult.missingField f msg = enginesRequiredDiag then 1 else 0) +
      (if enginesVscode m = none ∧ ManifestValidationResult.missingField f msg = enginesVscodeRequiredDiag then 1 else 0) := by
  unfold validateErrors
  simp only [List.count_append]
  rw [count_nameDiags, count_versionDiags, count_publisherDiags, count_enginesDiags,
      count_enginesVscodeDiags,
      count_engineCompatDiags _ _ (by intro a b h; cases h),
      count_nameFormatDiags _ _ (by intro a b h; cases h),
      count_versionFormatDiags _ _ (by intro a b h; cases h),
      count_publisherFormatDiags _ _ (by intro a b h; cases h),
      count_pricingDiags _ _ (by intro a b h; cases h),
      count_activationDiags_ne _ _ h1 h2 h3,
      count_devDependenciesDiags _ _ (by intro h; cases h),
      count_iconDiags _ _ (by intro a b h; cases h),
      count_badgesDiags _ _ (by intro a b h; cases h) (by intro a b h; cases h),
      count_dependenciesDiags _ _ (by intro a b h; cases h),
      count_extensionKindDiags _ _ (by intro a b h; cases h),
      count_sponsorDiags _ _ (by intro a b h; cases h)]
  omega

/-- The invalid-engine-range diagnostic occurs exactly once when the range
test fails and never otherwise, whatever the rest of the manifest. -/
theorem count_validateErrors_invalidEngine (m : Manifest) :
    (validateErrors m).count invalidEngineDiag =
      if vscodeEngineRegexTest (vscodeEngineVersion m) then 0 else 1 := by
  unfold validateErrors
  simp only [List.count_append]
  rw [count_nameDiags, count_versionDiags, count_publisherDiags, count_enginesDiags,
      count_enginesVscodeDiags, count_engineCompatDiags_self,
      count_nameFormatDiags _ _ (by intro a b h; cases h),
      count_versionFormatDiags _ _ (by intro a b h; cases h),
      count_publisherFormatDiags _ _ (by intro a b h; cases h),
      count_pricingDiags _ _ (by intro a b h; cases h),
      count_activationDiags_ne _ _ (by decide) (by decide) (by decide),
      count_devDependenciesDiags _ _ (by decide),
      count_iconDiags _ _ (by intro a b h; cases h),
      count_badgesDiags _ _ (by intro a b h; cases h) (by intro a b h; cases h),
      count_dependenciesDiags _ _ (by intro a b h; cases h),
      count_extensionKindDiags _ _ (by intro a b h; cases h),
      count_sponsorDiags _ _ (by intro a b h; cases h)]
  simp [invalidEngineDiag, nameRequiredDiag, versionRequiredDiag, publisherRequiredDiag,
    enginesRequiredDiag, enginesVscodeRequiredDiag]

theorem count_activationDiags_mainOrBrowser (m : Manifest) :
    (activationDiags m).count mainOrBrowserDiag =
      if (hasActivationEvents m ||
          ((vscodeEngineVersion m = "*" || semverSatisfiesGe174 (vscodeEngineVersion m)) &&
            hasImplicitActivationEvents m)) &&
         (!hasMain m && !hasBrowser m &&
          (hasActivationEvents m || !hasImplicitLanguageActivationEvents m)) = true
      then 1 else 0 := by
  unfold activationDiags
  split_ifs <;> simp_all [List.count_cons] <;> decide

theorem count_validateErrors_mainOrBrowser (m : Manifest) :
    (validateErrors m).count mainOrBrowserDiag = (activationDiags m).count mainOrBrowserDiag := by
  unfold validateErrors
  simp only [List.count_append]
  rw [count_nameDiags, count_versionDiags, count_publisherDiags, count_enginesDiags,
      count_enginesVscodeDiags,
      count_engineCompatDiags _ _ (by intro a b h; cases h),
      count_nameFormatDiags _ _ (by intro a b h; cases h),
      count_versionFormatDiags _ _ (by intro a b h; cases h),
      count_publisherFormatDiags _ _ (by intro a b h; cases h),
      count_pricingDiags _ _ (by intro a b h; cases h),
      count_devDependenciesDiags _ _ (by decide),
      count_iconDiags _ _ (by intro a b h; cases h),
      count_badgesDiags _ _ (by intro a b h; cases h) (by intro a b h; cases h),
      count_dependenciesDiags _ _ (by intro a b h; cases h),
      count_extensionKindDiags _ _ (by intro a b h; cases h),
      count_sponsorDiags _ _ (by intro a b h; cases h)]
  simp [mainOrBrowserDiag, nameRequiredDiag, versionRequiredDiag, publisherRequiredDiag,
    enginesRequiredDiag, enginesVscodeRequiredDiag]

/-- The `main or browser` diagnostic is emitted exactly under the source's
activation-consistency condition. -/
theorem mem_validateErrors_mainOrBrowser (m : Manifest) :
    mainOrBrowserDiag ∈ validateErrors m ↔
      ((hasActivationEvents m ||
        ((vscodeEngineVersion m = "*" || semverSatisfiesGe174 (vscodeEngineVersion m)) &&
          hasImplicitActivationEvents m)) &&
       (!hasMain m && !hasBrowser m &&
        (hasActivationEvents m || !hasImplicitLanguageActivationEvents m))) = true := by
  rw [← List.count_pos_iff, count_validateErrors_mainOrBrowser,
      count_activationDiags_mainOrBrowser]
  split <;> (simp_all; try tauto)

/-! ## Helper lemmas: escaping -/

theorem countChar_append (c : Char) (a b : String) :
    countChar c (a ++ b) = countChar c a + countChar c b := by
  show (a.data ++ b.data).count c = a.data.count c + b.data.count c
  rw [List.count_append]

theorem entitySafe_escapeXmlData (l : List Char) : EntitySafe (escapeXmlData l) := by
  induction l with
  | nil => exact .nil
  | cons c cs ih =>
      show EntitySafe (escapeXmlChar c ++ escapeXmlData cs)
      by_cases h1 : c = '\''
      · subst h1; exact .apos _ ih
      · by_cases h2 : c = '"'
        · subst h2; exact .quot _ ih
        · by_cases h3 : c = '<'
          · subst h3; exact .lt _ ih
          · by_cases h4 : c = '>'
            · subst h4; exact .gt _ ih
            · by_cases h5 : c = '&'
              · subst h5; exact .amp _ ih
              · have he : escapeXmlChar c = [c] := by
                  unfold escapeXmlChar
                  rw [if_neg h1, if_neg h2, if_neg h3, if_neg h4, if_neg h5]
                rw [he]
                exact .ch c _ h1 h2 h3 h4 h5 ih

theorem countEsc_escapeXmlData (c : Char) (hc : c = '<' ∨ c = '>' ∨ c = '"' ∨ c = '\'')
    (l : List Char) : (escapeXmlData l).count c = 0 := by
  induction l with
  | nil => simp [escapeXmlData]
  | cons ch cs ih =>
      rw [show escapeXmlData (ch :: cs) = escapeXmlChar ch ++ escapeXmlData cs from rfl,
          List.count_append, ih, Nat.add_zero]
      unfold escapeXmlChar
      split_ifs with h1 h2 h3 h4 h5 <;>
        rcases hc with rfl | rfl | rfl | rfl <;>
        simp_all [List.count_cons]

theorem countChar_escapeXml (c : Char) (hc : c = '<' ∨ c = '>' ∨ c = '"' ∨ c = '\'')
    (s : String) : countChar c (escapeXml s) = 0 :=
  countEsc_escapeXmlData c hc s.data

/-! ## The claims -/

/-- C1: for every run of `createVsix` in which `validateProjectManifest`
returns a non-empty diagnostic sequence, the orchestrator returns
immediately with `files = []`, `written = false` and `errors` equal to the
full diagnostic sequence, and the trace shows no call to the synthesizer
(`createVsixManifest`), the content-type mapper (`getContentTypesForFiles`)
or the archive writer (`writeVsix`). -/
theorem createVsix_refusal_on_diagnostics (options : Options) (env : Env)
    (pm : ProjectManifestR) (errs : List ManifestValidationResult)
    (hpm : env.projectManifest = some pm) (hv : env.validationResult = some errs)
    (hne : errs ≠ []) :
    createVsix options env =
      ({ files := [], vsixPath := none, written := false, manifest := some pm.manifest,
         errors := errs.map .validation },
       [TraceEvent.readProjectManifestCall, TraceEvent.validateProjectManifestCall]) ∧
    ∀ e ∈ (createVsix options env).2,
      e.isSynthesizerCall = false ∧ e.isContentTypesCall = false ∧ e.isWriteCall = false := by
  have h1 : createVsix options env =
      ({ files := [], vsixPath := none, written := false, manifest := some pm.manifest,
         errors := errs.map .validation },
       [TraceEvent.readProjectManifestCall, TraceEvent.validateProjectManifestCall]) := by
    unfold createVsix
    rw [hpm]
    simp only [hv, Option.getD_some]
    rw [if_pos (List.length_pos.mpr hne)]
  refine ⟨h1, ?_⟩
  rw [h1]
  intro e he
  simp only [List.mem_cons, List.mem_singleton] at he
  rcases he with rfl | rfl | h
  · exact ⟨rfl, rfl, rfl⟩
  · exact ⟨rfl, rfl, rfl⟩
  · cases h

/-- C1 witness: a run whose validation yields two diagnostics refuses with
exactly those errors and a two-call trace. -/
theorem createVsix_refusal_on_diagnostics_witness :
    createVsix defaultOptions failingEnv =
      ({ files := [], vsixPath := none, written := false, manifest := some emptyManifest,
         errors := [.validation nameRequiredDiag, .validation versionRequiredDiag] },
       [TraceEvent.readProjectManifestCall, TraceEvent.validateProjectManifestCall]) :=
  (createVsix_refusal_on_diagnostics defaultOptions failingEnv
    ⟨"/proj/package.json", emptyManifest⟩
    [nameRequiredDiag, versionRequiredDiag] rfl rfl (by decide)).1

/-- C2 counterexample: the manifest whose `contributes` declares both
`languages` and `commands`, with engine range `*`, no explicit activation
events and no `main`/`browser`, is claimed not exempt — but
`validateProjectManifest` accepts it outright: the language contribution
alone exempts it even though `commands` is a second implicit-activation
source. -/
theorem languagesAndCommands_exemption_counterexample :
    hasImplicitLanguageActivationEvents languagesAndCommandsManifest = true ∧
    hasOtherImplicitActivationEvents languagesAndCommandsManifest = true ∧
    hasActivationEvents languagesAndCommandsManifest = false ∧
    hasMain languagesAndCommandsManifest = false ∧
    hasBrowser languagesAndCommandsManifest = false ∧
    vscodeEngineVersion languagesAndCommandsManifest = "*" ∧
    validateProjectManifest languagesAndCommandsManifest = none := by decide

/-- C2 (amended): for a manifest with neither truthy `main` nor `browser`,
the `MissingField{main or browser}` diagnostic is emitted exactly when
explicit activation events are present, or the engine range is `*` or
satisfies `>=1.74` (prereleases included) while some implicit activation
contribution is present **and no language contribution is present**: the
exemption applies whenever a language contribution is declared and there
are no explicit activation events, even when other implicit-activation
sources are also declared. -/
theorem mainOrBrowser_exemption_characterization (m : Manifest)
    (hm : hasMain m = false) (hb : hasBrowser m = false) :
    mainOrBrowserDiag ∈ validateErrors m ↔
      (hasActivationEvents m = true ∨
       ((vscodeEngineVersion m = "*" ∨ semverSatisfiesGe174 (vscodeEngineVersion m) = true) ∧
        hasImplicitActivationEvents m = true ∧
        hasImplicitLanguageActivationEvents m = false)) := by
  rw [mem_validateErrors_mainOrBrowser]
  simp [hm, hb]
  tauto

/-- C2 witness: a valid manifest with explicit activation events and no
entry point receives the `main or browser` diagnostic. -/
theorem mainOrBrowser_exemption_characterization_witness :
    mainOrBrowserDiag ∈ validateErrors activationEventsOnlyManifest :=
  (mainOrBrowser_exemption_characterization activationEventsOnlyManifest
    (by decide) (by decide)).mpr (Or.inl (by decide))

/-- C3: the claim that every diagnostic is one of the twelve declared
variants, each carrying a field and a message, is contradicted by the code:
for a manifest whose `devDependencies` holds `@types/vscode`,
`validateProjectManifest` pushes the bare `{ type: "NOT_IMPLEMENTED" }`
object — a thirteenth kind, outside the declared union and carrying
neither field nor message. -/
theorem notImplemented_diagnostic_produced :
    validateProjectManifest typesVscodeManifest =
      some [ManifestValidationResult.notImplemented] ∧
    isDeclaredDiagnostic ManifestValidationResult.notImplemented = false := by decide

/-- C4: the claim that a manifest with all required fields present and all
fields well-formed validates to the empty result is contradicted by the
code: `{name:"demo", version:"1.0.0", publisher:"acme",
engines:{vscode:"^1.0.0"}, devDependencies:{"@types/vscode":"^1.74.0"}}`
is entirely well-formed under the spec's twelve checks, yet the run
returns the non-empty sequence `[{ type: "NOT_IMPLEMENTED" }]`. -/
theorem wellFormed_devDependencies_rejected :
    validateProjectManifest wellFormedDevDepsManifest =
      some [ManifestValidationResult.notImplemented] := by decide

/-- C5 counterexample: on the badge scenario
`{url:"http://img.example.com/b.png", …}` the validator does not return
exactly the single https-protocol diagnostic. -/
theorem httpBadge_single_diagnostic_counterexample :
    validateProjectManifest httpBadgeManifest ≠ some [httpsProtocolBadgeDiag] := by decide

/-- C5 (amended): the badge scenario yields exactly two diagnostics — the
`InvalidBadgeUrl` citing the https-protocol requirement, followed by an
`UntrustedHost`, since `img.example.com` is on no trusted-host allow-list
and the URL is no GitHub workflow badge. -/
theorem httpBadge_two_diagnostics :
    validateProjectManifest httpBadgeManifest =
      some [httpsProtocolBadgeDiag, untrustedHostDiag] := by decide

/-- C6: each required field among `name`, `version`, `publisher`, `engines`
and `engines.vscode` contributes its `MissingField` diagnostic exactly once
when absent and never when present, and each of the five counts depends
only on its own field's presence — so removing one field never suppresses
another's diagnostic. -/
theorem missingField_presence_counts (m : Manifest) :
    ((validateErrors m).count nameRequiredDiag = if m.name = none then 1 else 0) ∧
    ((validateErrors m).count versionRequiredDiag = if m.version = none then 1 else 0) ∧
    ((validateErrors m).count publisherRequiredDiag = if m.publisher = none then 1 else 0) ∧
    ((validateErrors m).count enginesRequiredDiag = if m.engines = none then 1 else 0) ∧
    ((validateErrors m).count enginesVscodeRequiredDiag = if enginesVscode m = none then 1 else 0) := by
  refine ⟨?_, ?_, ?_, ?_, ?_⟩ <;>
  · simp only [nameRequiredDiag, versionRequiredDiag, publisherRequiredDiag,
      enginesRequiredDiag, enginesVscodeRequiredDiag]
    rw [count_validateErrors_presence m _ _ (by decide) (by decide) (by decide)]
    simp [nameRequiredDiag, versionRequiredDiag, publisherRequiredDiag,
      enginesRequiredDiag, enginesVscodeRequiredDiag]

/-- C7: `validateProjectManifest` tests `engines.vscode` — defaulting to
`""` when absent — against the engine-range grammar and emits the
invalid-engine-range diagnostic exactly once when the test fails,
independently of the presence check; in particular a manifest lacking
`engines.vscode` receives both the `MissingField{engines.vscode}`
diagnostic and the invalid-engine-range diagnostic. -/
theorem engineRange_check_characterization (m : Manifest) :
    ((validateErrors m).count invalidEngineDiag =
       if vscodeEngineRegexTest (vscodeEngineVersion m) then 0 else 1) ∧
    (enginesVscode m = none →
      enginesVscodeRequiredDiag ∈ validateErrors m ∧ invalidEngineDiag ∈ validateErrors m) := by
  refine ⟨count_validateErrors_invalidEngine m, fun h => ⟨?_, ?_⟩⟩
  · rw [← List.count_pos_iff]
    have hc := count_validateErrors_presence m "engines.vscode"
      "The `engines.vscode` field is required." (by decide) (by decide) (by decide)
    rw [show enginesVscodeRequiredDiag =
          ManifestValidationResult.missingField "engines.vscode"
            "The `engines.vscode` field is required." from rfl, hc]
    simp [h, nameRequiredDiag, versionRequiredDiag, publisherRequiredDiag,
      enginesRequiredDiag, enginesVscodeRequiredDiag]
  · rw [← List.count_pos_iff, count_validateErrors_invalidEngine]
    have hv : vscodeEngineVersion m = "" := by
      unfold vscodeEngineVersion; rw [h]; rfl
    rw [hv]
    decide

/-- C7 witness: the empty manifest lacks `engines.vscode` and receives both
diagnostics, the range one exactly once. -/
theorem engineRange_check_characterization_witness :
    ((validateErrors emptyManifest).count invalidEngineDiag =
       if vscodeEngineRegexTest (vscodeEngineVersion emptyManifest) then 0 else 1) ∧
    enginesVscodeRequiredDiag ∈ validateErrors emptyManifest ∧
    invalidEngineDiag ∈ validateErrors emptyManifest :=
  ⟨(engineRange_check_characterization emptyManifest).1,
   (engineRange_check_characterization emptyManifest).2 rfl⟩

/-- C8: every textual value `toVsixManifest` embeds passes through
`escapeXml`, which replaces each of the five reserved markup characters by
its entity and leaves nothing raw (every `&` of its output begins an
entity); in particular, varying `id` and `displayName` — even with raw
`<`, `>`, `&` in them — never changes the number of raw `<`, `>`, `"` or
`'` characters of the synthesized document. -/
theorem toVsixManifest_escapes_textual_values :
    (∀ s : String, EntitySafe (escapeXml s).data) ∧
    (∀ (m : VsixManifest) (id1 dn1 id2 dn2 : String) (c : Char),
      (c = '<' ∨ c = '>' ∨ c = '"' ∨ c = '\'') →
      countChar c (toVsixManifest (setIdAndDisplayName m id1 dn1)) =
      countChar c (toVsixManifest (setIdAndDisplayName m id2 dn2))) := by
  refine ⟨fun s => entitySafe_escapeXmlData s.data, ?_⟩
  intro m id1 dn1 id2 dn2 c hc
  have hbody : ∀ i d, vsixBody (setIdAndDisplayName m i d) = vsixBody m := fun i d => rfl
  have hid : ∀ i d, (setIdAndDisplayName m i d).id = i := fun i d => rfl
  have hdn : ∀ i d, (setIdAndDisplayName m i d).displayName = d := fun i d => rfl
  have hver : ∀ i d, (setIdAndDisplayName m i d).version = m.version := fun i d => rfl
  have hpub : ∀ i d, (setIdAndDisplayName m i d).publisher = m.publisher := fun i d => rfl
  have htgt : ∀ i d, (setIdAndDisplayName m i d).target = m.target := fun i d => rfl
  unfold toVsixManifest
  rw [hbody, hbody, hid, hid, hdn, hdn, hver, hver, hpub, hpub, htgt, htgt,
      countChar_append, countChar_append, countChar_append, countChar_append,
      countChar_append, countChar_append, countChar_append, countChar_append,
      countChar_escapeXml c hc id1, countChar_escapeXml c hc id2,
      countChar_escapeXml c hc dn1, countChar_escapeXml c hc dn2]

/-- C8 witness: an `id` and `displayName` full of raw `<`, `>`, `&` leave
the document's raw `<` count unchanged. -/
theorem toVsixManifest_escapes_textual_values_witness :
    countChar '<' (toVsixManifest (setIdAndDisplayName sampleVsixManifest "a<b>&c" "d<e>")) =
    countChar '<' (toVsixManifest (setIdAndDisplayName sampleVsixManifest "plain" "name")) :=
  toVsixManifest_escapes_textual_values.2 sampleVsixManifest
    "a<b>&c" "d<e>" "plain" "name" '<' (Or.inl rfl)

/-- C9: in every run that reaches document synthesis, the content-type
mapper is invoked on exactly the collected file list, and only afterwards
are the two in-memory entries appended at the package-root paths
`extension.vsixmanifest` and `[Content_Types].xml` (outside the
`extension/` prefix), so the final file list is the collected files
followed by those two entries in that order. -/
theorem contentTypes_before_synthesized_append (options : Options) (env : Env)
    (pm : ProjectManifestR)
    (hpm : env.projectManifest = some pm)
    (hv : env.validationResult = none ∨ env.validationResult = some [])
    (hpkg : env.extensionDependencies.packageManager ≠ none ∨ options.skipScripts = some true) :
    (createVsix options env).1.files =
      env.collected ++
      [VsixFile.inMemory "extension.vsixmanifest" env.vsixManifestDoc,
       VsixFile.inMemory "[Content_Types].xml" env.contentTypesFile] ∧
    TraceEvent.getContentTypesForFilesCall env.collected ∈ (createVsix options env).2 ∧
    strStartsWith "extension.vsixmanifest" "extension/" = false ∧
    strStartsWith "[Content_Types].xml" "extension/" = false := by
  have hgate : ¬(env.extensionDependencies.packageManager = none ∧
      options.skipScripts ≠ some true) := by
    rcases hpkg with h | h
    · exact fun hc => h hc.1
    · exact fun hc => hc.2 h
  have h1 : createVsix options env = createVsixAfterValidation options env pm.manifest
      (options.packagePath.getD
        (jsShow pm.manifest.name ++ "-" ++ jsShow pm.manifest.version ++ ".vsix")) := by
    unfold createVsix
    rw [hpm]
    rcases hv with h | h <;> simp [h]
  rw [h1]
  unfold createVsixAfterValidation
  rw [if_neg hgate]
  refine ⟨?_, ?_, by decide, by decide⟩ <;>
  · split_ifs <;> simp

/-- C9 witness: a fully successful run appends exactly the two documents
after the two collected files. -/
theorem contentTypes_before_synthesized_append_witness :
    (createVsix defaultOptions happyEnv).1.files =
      happyEnv.collected ++
      [VsixFile.inMemory "extension.vsixmanifest" happyEnv.vsixManifestDoc,
       VsixFile.inMemory "[Content_Types].xml" happyEnv.contentTypesFile] ∧
    TraceEvent.getContentTypesForFilesCall happyEnv.collected ∈ (createVsix defaultOptions happyEnv).2 ∧
    strStartsWith "extension.vsixmanifest" "extension/" = false ∧
    strStartsWith "[Content_Types].xml" "extension/" = false :=
  contentTypes_before_synthesized_append defaultOptions happyEnv
    ⟨"/proj/package.json", validBaseManifest⟩ rfl (Or.inl rfl) (Or.inl (by decide))

/-- C10 counterexample: a `write: false` run whose manifest validates but
whose package manager cannot be determined (scripts not skipped) returns
`files = []` — it does not carry the two synthesized documents, contrary
to the claim as stated. -/
theorem dryRun_missing_packageManager_counterexample :
    dryRunOptions.write = some false ∧
    noPackageManagerEnv.validationResult = none ∧
    (createVsix dryRunOptions noPackageManagerEnv).1.files = [] := by decide

/-- C10 (amended): for every run with `options.write` explicitly `false`, a
manifest that validates, and a determined package manager (or scripts
skipped), the archive writer — and even the `existsSync` probe — is never
invoked, and the result has `written = false` while carrying the complete
file list including the two synthesized in-memory documents. -/
theorem dryRun_never_invokes_writer (options : Options) (env : Env) (pm : ProjectManifestR)
    (hw : options.write = some false)
    (hpm : env.projectManifest = some pm)
    (hv : env.validationResult = none ∨ env.validationResult = some [])
    (hpkg : env.extensionDependencies.packageManager ≠ none ∨ options.skipScripts = some true) :
    (createVsix options env).1.written = false ∧
    (createVsix options env).1.files =
      env.collected ++
      [VsixFile.inMemory "extension.vsixmanifest" env.vsixManifestDoc,
       VsixFile.inMemory "[Content_Types].xml" env.contentTypesFile] ∧
    ((createVsix options env).2.all
      (fun e => !e.isWriteCall && !e.isExistsSyncCall)) = true := by
  have hgate : ¬(env.extensionDependencies.packageManager = none ∧
      options.skipScripts ≠ some true) := by
    rcases hpkg with h | h
    · exact fun hc => h hc.1
    · exact fun hc => hc.2 h
  have h1 : createVsix options env = createVsixAfterValidation options env pm.manifest
      (options.packagePath.getD
        (jsShow pm.manifest.name ++ "-" ++ jsShow pm.manifest.version ++ ".vsix")) := by
    unfold createVsix
    rw [hpm]
    rcases hv with h | h <;> simp [h]
  rw [h1]
  unfold createVsixAfterValidation
  rw [if_neg hgate]
  simp only [hw, Option.getD_some, Bool.false_eq_true, if_false]
  refine ⟨trivial, trivial, ?_⟩
  split_ifs <;>
    simp [List.all_append, TraceEvent.isWriteCall, TraceEvent.isExistsSyncCall]

/-- C10 witness: a dry run with a determined package manager returns the
full file list with `written = false` and a trace free of writer calls. -/
theorem dryRun_never_invokes_writer_witness :
    (createVsix dryRunOptions happyEnv).1.written = false ∧
    (createVsix dryRunOptions happyEnv).1.files =
      happyEnv.collected ++
      [VsixFile.inMemory "extension.vsixmanifest" happyEnv.vsixManifestDoc,
       VsixFile.inMemory "[Content_Types].xml" happyEnv.contentTypesFile] ∧
    ((createVsix dryRunOptions happyEnv).2.all
      (fun e => !e.isWriteCall && !e.isExistsSyncCall)) = true :=
  dryRun_never_invokes_writer dryRunOptions happyEnv
    ⟨"/proj/package.json", validBaseManifest⟩ rfl rfl (Or.inl rfl) (Or.inl (by decide))

end VsixBuilder
